import Mathlib

/-!
# route53-ddns-updater: a shallow embedding of `main.go`

The program is a sequential composition of external calls (an HTTP GET to the
IP-echo endpoint, the Route 53 list and change calls, the Sentry sink, stdout and
the log).  It is embedded as a state-passing program over an abstract external
world: every external call is answered by the world and recorded as an event, so
that statements such as "the Updater is invoked exactly once" are statements about
the recorded events.

Go values are modelled as follows.
* `string` is `String`; a `*string` is `Option String` (`none` is `nil`).
* A pair `(*T, error)` returned by a call is `Option T × Option GoError`.
* `os.Exit`, `log.Fatalf` and run-time panics (nil dereference, index out of
  range) end the current computation with a `Halt`; `defer` is modelled by
  `withDefer`, which runs the deferred call on normal return and on panic, and
  not on `os.Exit`.
-/

namespace Route53Ddns

/-! ## Go and SDK data -/

/-- A Go `error` value, identified by its message. -/
abbrev GoError := String

/-- The ways a computation stops without returning to its caller. -/
inductive Halt where
  /-- Reached `os.Exit(code)`: the process ends at once, deferred calls are skipped. -/
  | exit (code : Int)
  /-- A run-time panic; the process ends with a crash once deferred calls have run. -/
  | panic (msg : String)
  deriving DecidableEq, Repr

/-- The `resp.Body` reader as seen by `io.ReadAll` and `Body.Close`. -/
structure ReadCloser where
  /-- The text `io.ReadAll` hands back (everything read before EOF or a failure). -/
  data : String
  /-- The error of `io.ReadAll`, `none` for `nil`. -/
  readErr : Option GoError
  /-- The error of `Body.Close`, `none` for `nil`. -/
  closeErr : Option GoError
  deriving DecidableEq, Repr

/-- The fields of `http.Response` the program reads. -/
structure Response where
  StatusCode : Int
  Body : ReadCloser
  deriving DecidableEq, Repr

/-- The SDK type `types.ResourceRecord`. -/
structure ResourceRecord where
  Value : Option String
  deriving DecidableEq, Repr

/-- The SDK type `types.RRType` is a string type. -/
abbrev RRType := String

/-- The SDK constant `types.RRTypeA`. -/
def RRTypeA : RRType := "A"

/-- The SDK type `types.ChangeAction` is a string type. -/
abbrev ChangeAction := String

/-- The SDK constant `types.ChangeActionUpsert`. -/
def ChangeActionUpsert : ChangeAction := "UPSERT"

/-- The fields of `types.ResourceRecordSet` the program reads or sets. -/
structure ResourceRecordSet where
  Name : Option String
  /-- The field `Type`. -/
  Type' : RRType
  TTL : Option Int
  ResourceRecords : List ResourceRecord
  deriving DecidableEq, Repr

/-- The SDK type `types.Change`. -/
structure Change where
  Action : ChangeAction
  ResourceRecordSet : Option ResourceRecordSet
  deriving DecidableEq, Repr

/-- The SDK type `types.ChangeBatch`. -/
structure ChangeBatch where
  Changes : List Change
  deriving DecidableEq, Repr

/-- The SDK type `route53.ChangeResourceRecordSetsInput`. -/
structure ChangeResourceRecordSetsInput where
  HostedZoneId : Option String
  ChangeBatch : Option ChangeBatch
  deriving DecidableEq, Repr

/-- The fields of `route53.ListResourceRecordSetsInput` the program sets. -/
structure ListResourceRecordSetsInput where
  HostedZoneId : Option String
  StartRecordName : Option String
  deriving DecidableEq, Repr

/-- The field of `route53.ListResourceRecordSetsOutput` the program reads. -/
structure ListResourceRecordSetsOutput where
  ResourceRecordSets : List ResourceRecordSet
  deriving DecidableEq, Repr

/-- The parsed command line: the four package variables and the three locals of `init`. -/
structure Flags where
  awsKey : String
  awsSecret : String
  hostedZoneId : String
  recordName : String
  sentryDsn : String
  whatsMyIP : Bool
  registeredIP : Bool
  deriving DecidableEq, Repr

/-- The constant `AWSRegion`. -/
def AWSRegion : String := "eu-west-1"

/-! ## Events and the external world -/

/-- One externally visible action of the process. -/
inductive Event where
  | sentryInit (dsn : String)
  | captureMessage (msg : String)
  | captureException (err : Option GoError)
  | flush (seconds : Nat)
  | printf (out : String)
  | logPrintln (line : String)
  | logFatalf (line : String)
  | httpGet (url : String)
  | bodyClose
  | loadDefaultConfig (region key secret : String)
  | listResourceRecordSets (input : ListResourceRecordSetsInput)
  | changeResourceRecordSets (input : ChangeResourceRecordSetsInput)
  deriving DecidableEq, Repr

/-- The external collaborators, each a transition on the world state `σ`. -/
structure World (σ : Type) where
  /-- Answer of `sentry.Init` for a DSN. -/
  sentryInit : σ → String → Option GoError × σ
  /-- Answer of `http.Get` for a URL. -/
  httpGet : σ → String → (Option Response × Option GoError) × σ
  /-- Answer of `config.LoadDefaultConfig` for region, key and secret. -/
  loadDefaultConfig : σ → String → String → String → Option GoError × σ
  /-- Answer of `ListResourceRecordSets`. -/
  listResourceRecordSets :
    σ → ListResourceRecordSetsInput → (Option ListResourceRecordSetsOutput × Option GoError) × σ
  /-- Answer of `ChangeResourceRecordSets` (only its error is used). -/
  changeResourceRecordSets : σ → ChangeResourceRecordSetsInput → Option GoError × σ

/-- What a computation leaves behind: its result, the world after it, the events it emitted. -/
structure Step (σ α : Type) where
  result : Except Halt α
  world : σ
  events : List Event

/-- A computation over the world state `σ`. -/
def Prog (σ α : Type) : Type := σ → Step σ α

/-- Return a value without touching the world. -/
def Prog.pure {σ α : Type} (a : α) : Prog σ α :=
  fun w => ⟨.ok a, w, []⟩

/-- Sequencing: the second computation runs only when the first returned. -/
def Prog.bind {σ α β : Type} (p : Prog σ α) (f : α → Prog σ β) : Prog σ β :=
  fun w =>
    match p w with
    | ⟨.ok a, w1, es⟩ =>
      match f a w1 with
      | ⟨r, w2, es2⟩ => ⟨r, w2, es ++ es2⟩
    | ⟨.error h, w1, es⟩ => ⟨.error h, w1, es⟩

instance {σ : Type} : Monad (Prog σ) where
  pure := Prog.pure
  bind := Prog.bind

/-- Record one event. -/
def emit {σ : Type} (e : Event) : Prog σ Unit :=
  fun w => ⟨.ok (), w, [e]⟩

/-- Record one event and let the world answer it. -/
def call {σ α : Type} (e : Event) (f : σ → α × σ) : Prog σ α :=
  fun w => ⟨.ok (f w).1, (f w).2, [e]⟩

/-- The call `os.Exit(code)`. -/
def osExit {σ α : Type} (code : Int) : Prog σ α :=
  fun w => ⟨.error (.exit code), w, []⟩

/-- A run-time panic. -/
def goPanic {σ α : Type} (msg : String) : Prog σ α :=
  fun w => ⟨.error (.panic msg), w, []⟩

/-- The call `log.Fatalf`: write the line, then `os.Exit(1)`. -/
def logFatalf {σ α : Type} (line : String) : Prog σ α := do
  emit (.logFatalf line)
  osExit 1

/-- A function body with one `defer`: the deferred call runs when the body returns
and when it panics; `os.Exit` ends the process without running it. -/
def withDefer {σ α : Type} (deferred : Prog σ Unit) (body : Prog σ α) : Prog σ α :=
  fun w =>
    match body w with
    | ⟨.ok a, w1, es⟩ =>
      match deferred w1 with
      | ⟨.ok _, w2, es2⟩ => ⟨.ok a, w2, es ++ es2⟩
      | ⟨.error h, w2, es2⟩ => ⟨.error h, w2, es ++ es2⟩
    | ⟨.error (.panic msg), w1, es⟩ =>
      match deferred w1 with
      | ⟨.ok _, w2, es2⟩ => ⟨.error (.panic msg), w2, es ++ es2⟩
      | ⟨.error h, w2, es2⟩ => ⟨.error h, w2, es ++ es2⟩
    | ⟨.error (.exit code), w1, es⟩ => ⟨.error (.exit code), w1, es⟩

/-! ## Standard-library helpers -/

/-- Go's `unicode.IsSpace`: the Unicode White_Space code points. -/
def isSpace (c : Char) : Bool :=
  let n := c.toNat
  (9 ≤ n && n ≤ 13) || n == 0x20 || n == 0x85 || n == 0xA0 || n == 0x1680 ||
    (0x2000 ≤ n && n ≤ 0x200A) || n == 0x2028 || n == 0x2029 || n == 0x202F ||
    n == 0x205F || n == 0x3000

/-- Go's `strings.TrimSpace`: `TrimRightFunc (TrimLeftFunc s IsSpace) IsSpace`. -/
def TrimSpace (s : String) : String :=
  ⟨List.rdropWhile isSpace (List.dropWhile isSpace s.data)⟩

/-- The helper `aws.ToString`: the pointed-to string, or the empty string for `nil`. -/
def ToString (p : Option String) : String :=
  match p with
  | some s => s
  | none => ""

/-- The message of a nil-pointer dereference panic. -/
def nilDereference : String :=
  "runtime error: invalid memory address or nil pointer dereference"

/-- The message of an index-out-of-range panic at index 0 of an empty slice. -/
def indexOutOfRange : String :=
  "runtime error: index out of range [0] with length 0"

/-! ## The program -/

/-- The URL `publicIP` queries. -/
def checkipURL : String := "http://checkip.amazonaws.com/"

/-- The function `publicIP` (main.go 125-140). -/
def publicIP {σ : Type} (W : World σ) : Prog σ String := do
  let (resp, err) ← call (.httpGet checkipURL) (fun w => W.httpGet w checkipURL)
  -- `err != nil || resp.StatusCode > 299`: the right operand is evaluated only when
  -- `err` is nil, and dereferences `resp`.
  let failed ← (match err, resp with
    | some _, _ => (Pure.pure true : Prog σ Bool)
    | none, some r => Pure.pure (decide (r.StatusCode > 299))
    | none, none => goPanic nilDereference)
  if failed then emit (.captureException err)
  -- `resp.Body` dereferences `resp`.
  match resp with
  | none => goPanic nilDereference
  | some r =>
    -- `body, _ := io.ReadAll(resp.Body)`: the read error is dropped.
    let body := r.Body.data
    let ip := TrimSpace body
    -- the deferred `Body.Close()` and its error report run at return
    emit .bodyClose
    if r.Body.closeErr.isSome then emit (.captureException r.Body.closeErr)
    return ip

/-- The function `route53Client` (main.go 100-111); the client itself carries no
information the program inspects, so the function returns `Unit`. -/
def route53Client {σ : Type} (W : World σ) (fl : Flags) : Prog σ Unit := do
  let err ← call (.loadDefaultConfig AWSRegion fl.awsKey fl.awsSecret)
    (fun w => W.loadDefaultConfig w AWSRegion fl.awsKey fl.awsSecret)
  if err.isSome then emit (.captureException err)
  return ()

/-- The function `registeredIp` (main.go 113-123). -/
def registeredIp {σ : Type} (W : World σ) (fl : Flags) : Prog σ String := do
  route53Client W fl
  let input : ListResourceRecordSetsInput :=
    ⟨some fl.hostedZoneId, some fl.recordName⟩
  let (out, err) ← call (.listResourceRecordSets input)
    (fun w => W.listResourceRecordSets w input)
  if err.isSome then emit (.captureException err)
  -- `out.ResourceRecordSets[0].ResourceRecords[0].Value`
  match out with
  | none => goPanic nilDereference
  | some o =>
    match o.ResourceRecordSets with
    | [] => goPanic indexOutOfRange
    | rs :: _ =>
      match rs.ResourceRecords with
      | [] => goPanic indexOutOfRange
      | rr :: _ => return ToString rr.Value

/-- The body of `main` after its `defer` statement (main.go 71-97). -/
def mainBody {σ : Type} (W : World σ) (fl : Flags) : Prog σ Unit := do
  let pubIP ← publicIP W
  let reg ← registeredIp W fl
  if pubIP == reg then
    emit (.logPrintln "IP is already updated")
    osExit 0
  route53Client W fl
  let input : ChangeResourceRecordSetsInput :=
    ⟨some fl.hostedZoneId,
      some ⟨[⟨ChangeActionUpsert,
        some ⟨some fl.recordName, RRTypeA, some 3600, [⟨some pubIP⟩]⟩⟩]⟩⟩
  let err ← call (.changeResourceRecordSets input)
    (fun w => W.changeResourceRecordSets w input)
  if err.isSome then emit (.captureException err)

/-- The function `main` (main.go 68-98): `defer sentry.Flush(3 * time.Second)`, then the body. -/
def main {σ : Type} (W : World σ) (fl : Flags) : Prog σ Unit :=
  withDefer (emit (.flush 3)) (mainBody W fl)

/-- The function `init` after `flag.Parse()` (main.go 41-65). -/
def init {σ : Type} (W : World σ) (fl : Flags) : Prog σ Unit := do
  if fl.sentryDsn == "" then
    logFatalf "SentryDSN must be specified"
  let err ← call (.sentryInit fl.sentryDsn) (fun w => W.sentryInit w fl.sentryDsn)
  match err with
  | some e => logFatalf ("sentry.Init: " ++ e)
  | none => Pure.pure ()
  if fl.awsKey == "" || fl.awsSecret == "" || fl.hostedZoneId == "" || fl.recordName == "" then
    emit (.captureMessage
      "You must provide a AWS Access Key ID, Secret Key, Hosted Zone ID and Record Name")
    osExit 1
  if fl.whatsMyIP then
    let ip ← publicIP W
    emit (.printf ("My current IP address is " ++ ip ++ "\n"))
    osExit 0
  if fl.registeredIP then
    let ip ← registeredIp W fl
    emit (.printf ("Registered IP address is " ++ ip ++ "\n"))
    osExit 0

/-- One run of the process: the Go runtime runs `init`, then `main`. -/
def process {σ : Type} (W : World σ) (fl : Flags) : Prog σ Unit := do
  init W fl
  main W fl

/-! ## Observations on a run -/

/-- The Resolver calls among the events: the URLs of the HTTP GETs. -/
def resolverCalls : List Event → List String
  | [] => []
  | .httpGet url :: es => url :: resolverCalls es
  | _ :: es => resolverCalls es

/-- The Reader calls among the events: the list requests sent to the provider. -/
def readerCalls : List Event → List ListResourceRecordSetsInput
  | [] => []
  | .listResourceRecordSets i :: es => i :: readerCalls es
  | _ :: es => readerCalls es

/-- The Updater calls among the events: the change requests sent to the provider. -/
def updaterCalls : List Event → List ChangeResourceRecordSetsInput
  | [] => []
  | .changeResourceRecordSets i :: es => i :: updaterCalls es
  | _ :: es => updaterCalls es

/-- The reports handed to the error sink, a message as `some`, an exception by its error. -/
def sinkReports : List Event → List (Option GoError)
  | [] => []
  | .captureMessage m :: es => some m :: sinkReports es
  | .captureException e :: es => e :: sinkReports es
  | _ :: es => sinkReports es

/-- The lines printed to standard output. -/
def prints : List Event → List String
  | [] => []
  | .printf s :: es => s :: prints es
  | _ :: es => prints es

/-- The number of sink flushes among the events. -/
def flushCount : List Event → Nat
  | [] => 0
  | .flush _ :: es => flushCount es + 1
  | _ :: es => flushCount es

/-! ## Concrete worlds used to evaluate the program -/

/-- A world without state whose collaborators always give the same answers; the sink
initialises and the SDK configuration loads. -/
def fixedWorld (get : Option Response × Option GoError)
    (lst : Option ListResourceRecordSetsOutput × Option GoError)
    (chg : Option GoError) : World Unit where
  sentryInit := fun w _ => (none, w)
  httpGet := fun w _ => (get, w)
  loadDefaultConfig := fun w _ _ _ => (none, w)
  listResourceRecordSets := fun w _ => (lst, w)
  changeResourceRecordSets := fun w _ => (chg, w)

/-- The world `fixedWorld get lst chg` with a sink that fails to initialise. -/
def brokenSinkWorld (get : Option Response × Option GoError)
    (lst : Option ListResourceRecordSetsOutput × Option GoError)
    (chg : Option GoError) : World Unit where
  sentryInit := fun w _ => (some "[Sentry] DsnParseError: invalid scheme", w)
  httpGet := fun w _ => (get, w)
  loadDefaultConfig := fun w _ _ _ => (none, w)
  listResourceRecordSets := fun w _ => (lst, w)
  changeResourceRecordSets := fun w _ => (chg, w)

/-- A successful GET: status 200 and a body that reads and closes without error. -/
def okResponse (body : String) : Option Response × Option GoError :=
  (some ⟨200, ⟨body, none, none⟩⟩, none)

/-- A successful list answer holding one A record set with the single value `ip`. -/
def singleRecord (ip : String) : Option ListResourceRecordSetsOutput × Option GoError :=
  (some ⟨[⟨some "home.example.org.", RRTypeA, some 3600, [⟨some ip⟩]⟩]⟩, none)

/-- A complete command line with neither bypass flag set. -/
def sampleFlags : Flags :=
  ⟨"AKIAEXAMPLE", "secret", "Z123", "home.example.org.", "https://key@sentry.example/1",
    false, false⟩

/-- The effect of one change on the provider's record value: an upsert carrying a
value replaces it. -/
def applyChange (cur : String) (c : Change) : String :=
  if c.Action = ChangeActionUpsert then
    match c.ResourceRecordSet with
    | some rs =>
      match rs.ResourceRecords with
      | ⟨some v⟩ :: _ => v
      | _ => cur
    | none => cur
  else cur

/-- The effect of a change request on the provider's record value. -/
def applyBatch (cur : String) (i : ChangeResourceRecordSetsInput) : String :=
  match i.ChangeBatch with
  | some b => b.Changes.foldl applyChange cur
  | none => cur

/-- A provider that keeps the value of one A record as its state: the list call
returns the value set by the latest upsert, every upsert succeeds, and the IP-echo
endpoint always answers `body`. -/
def providerWorld (body : String) : World String where
  sentryInit := fun w _ => (none, w)
  httpGet := fun w _ => (okResponse body, w)
  loadDefaultConfig := fun w _ _ _ => (none, w)
  listResourceRecordSets := fun w i =>
    ((some ⟨[⟨i.StartRecordName, RRTypeA, some 3600, [⟨some w⟩]⟩]⟩, none), w)
  changeResourceRecordSets := fun w i => (none, applyBatch w i)

/-! ## Observations distribute over concatenation -/

theorem resolverCalls_append (a b : List Event) :
    resolverCalls (a ++ b) = resolverCalls a ++ resolverCalls b := by
  induction a with
  | nil => rfl
  | cons e es ih => cases e <;> simp [resolverCalls, ih]

theorem readerCalls_append (a b : List Event) :
    readerCalls (a ++ b) = readerCalls a ++ readerCalls b := by
  induction a with
  | nil => rfl
  | cons e es ih => cases e <;> simp [readerCalls, ih]

theorem updaterCalls_append (a b : List Event) :
    updaterCalls (a ++ b) = updaterCalls a ++ updaterCalls b := by
  induction a with
  | nil => rfl
  | cons e es ih => cases e <;> simp [updaterCalls, ih]

theorem sinkReports_append (a b : List Event) :
    sinkReports (a ++ b) = sinkReports a ++ sinkReports b := by
  induction a with
  | nil => rfl
  | cons e es ih => cases e <;> simp [sinkReports, ih]

theorem prints_append (a b : List Event) :
    prints (a ++ b) = prints a ++ prints b := by
  induction a with
  | nil => rfl
  | cons e es ih => cases e <;> simp [prints, ih]

/-! ## What each function does, by the answers of the world -/

/-- When the GET yields a response, `publicIP` returns the trimmed body. -/
theorem publicIP_of_response {σ : Type} (W : World σ) (w w1 : σ) (r : Response)
    (err : Option GoError) (h : W.httpGet w checkipURL = ((some r, err), w1)) :
    publicIP W w =
      ⟨.ok (TrimSpace r.Body.data), w1,
        [.httpGet checkipURL]
          ++ (if err.isSome || decide (r.StatusCode > 299) then [.captureException err] else [])
          ++ [.bodyClose]
          ++ (if r.Body.closeErr.isSome then [.captureException r.Body.closeErr] else [])⟩ := by
  cases err <;> by_cases hs : r.StatusCode > 299 <;> cases hc : r.Body.closeErr <;>
    simp [publicIP, bind, Prog.bind, call, emit, pure, Pure.pure, Prog.pure, h, hs, hc]

/-- When the GET yields no response, `publicIP` panics on the nil response. -/
theorem publicIP_of_nil {σ : Type} (W : World σ) (w w1 : σ)
    (err : Option GoError) (h : W.httpGet w checkipURL = ((none, err), w1)) :
    publicIP W w =
      ⟨.error (.panic nilDereference), w1,
        [.httpGet checkipURL] ++ (if err.isSome then [.captureException err] else [])⟩ := by
  cases err <;>
    simp [publicIP, bind, Prog.bind, call, emit, pure, Pure.pure, Prog.pure, goPanic, h]

/-- The function `publicIP` makes one Resolver call and no provider call. -/
theorem publicIP_calls {σ : Type} (W : World σ) (w : σ) :
    resolverCalls (publicIP W w).events = [checkipURL] ∧
      readerCalls (publicIP W w).events = [] ∧
      updaterCalls (publicIP W w).events = [] ∧
      prints (publicIP W w).events = [] := by
  rcases h : W.httpGet w checkipURL with ⟨⟨resp, err⟩, w1⟩
  cases resp with
  | none =>
    rw [publicIP_of_nil W w w1 err h]
    cases err <;> simp [resolverCalls, readerCalls, updaterCalls, prints]
  | some r =>
    rw [publicIP_of_response W w w1 r err h]
    cases err <;> by_cases hs : r.StatusCode > 299 <;> cases hc : r.Body.closeErr <;>
      simp [hs, resolverCalls, readerCalls, updaterCalls, prints]

/-- The function `route53Client` loads the configuration, reports a load error, and returns. -/
theorem route53Client_eq {σ : Type} (W : World σ) (fl : Flags) (w : σ) :
    route53Client W fl w =
      ⟨.ok (), (W.loadDefaultConfig w AWSRegion fl.awsKey fl.awsSecret).2,
        [.loadDefaultConfig AWSRegion fl.awsKey fl.awsSecret]
          ++ (if (W.loadDefaultConfig w AWSRegion fl.awsKey fl.awsSecret).1.isSome
              then [.captureException (W.loadDefaultConfig w AWSRegion fl.awsKey fl.awsSecret).1]
              else [])⟩ := by
  cases h : (W.loadDefaultConfig w AWSRegion fl.awsKey fl.awsSecret).1 <;>
    simp [route53Client, bind, Prog.bind, call, emit, pure, Pure.pure, Prog.pure, h]

/-- The function `registeredIp` makes one Reader call for the configured zone and name,
and no Resolver or Updater call. -/
theorem registeredIp_calls {σ : Type} (W : World σ) (fl : Flags) (w : σ) :
    resolverCalls (registeredIp W fl w).events = [] ∧
      readerCalls (registeredIp W fl w).events = [⟨some fl.hostedZoneId, some fl.recordName⟩] ∧
      updaterCalls (registeredIp W fl w).events = [] ∧
      prints (registeredIp W fl w).events = [] := by
  rcases hl : W.listResourceRecordSets
      (W.loadDefaultConfig w AWSRegion fl.awsKey fl.awsSecret).2
      ⟨some fl.hostedZoneId, some fl.recordName⟩ with ⟨⟨out, err⟩, w2⟩
  cases hc : (W.loadDefaultConfig w AWSRegion fl.awsKey fl.awsSecret).1 <;>
  cases err <;> cases out <;>
    simp [registeredIp, route53Client_eq, bind, Prog.bind, call, emit, pure, Pure.pure,
      Prog.pure, goPanic, hl, hc, resolverCalls, readerCalls, updaterCalls, prints]
  all_goals
    rename_i o
    rcases o with ⟨rss⟩
    cases rss with
    | nil => simp [resolverCalls, readerCalls, updaterCalls, prints]
    | cons rs rest =>
      rcases rs with ⟨n, t, ttl, rrs⟩
      cases rrs <;> simp [resolverCalls, readerCalls, updaterCalls, prints]

/-- A halt in `init` is the outcome of the whole process: `main` is never entered. -/
theorem process_of_init_halt {σ : Type} (W : World σ) (fl : Flags) (w : σ) (h : Halt)
    (hi : (init W fl w).result = .error h) : process W fl w = init W fl w := by
  rcases hs : init W fl w with ⟨r, w1, es⟩
  rw [hs] at hi
  simp only at hi
  subst hi
  simp [process, bind, Prog.bind, hs]

/-- Trimming with `dropWhile` then `rdropWhile` leaves a middle part whose two removed
ends satisfy the predicate and whose own ends do not. -/
theorem trim_middle (p : Char → Bool) (b : List Char) :
    ∃ l t, b = l ++ List.rdropWhile p (List.dropWhile p b) ++ t ∧
      (∀ c ∈ l, p c = true) ∧ (∀ c ∈ t, p c = true) ∧
      (∀ c, (List.rdropWhile p (List.dropWhile p b)).head? = some c → p c = false) ∧
      (∀ c, (List.rdropWhile p (List.dropWhile p b)).getLast? = some c → p c = false) := by
  refine ⟨List.takeWhile p b, List.rtakeWhile p (List.dropWhile p b), ?_, ?_, ?_, ?_, ?_⟩
  · have h2 : List.rdropWhile p (List.dropWhile p b) ++ List.rtakeWhile p (List.dropWhile p b)
        = List.dropWhile p b := by
      simp [List.rdropWhile, List.rtakeWhile, ← List.reverse_append]
    rw [List.append_assoc, h2, List.takeWhile_append_dropWhile]
  · intro c hc
    exact List.mem_takeWhile_imp hc
  · intro c hc
    exact List.mem_rtakeWhile_imp hc
  · intro c hc
    obtain ⟨t, ht⟩ := List.rdropWhile_prefix p (l := List.dropWhile p b)
    cases hm : List.rdropWhile p (List.dropWhile p b) with
    | nil => rw [hm] at hc; simp at hc
    | cons x xs =>
      rw [hm] at hc ht
      simp only [List.head?_cons, Option.some.injEq] at hc
      subst hc
      have hd := List.head?_dropWhile_not p b
      rw [← ht] at hd
      simpa using hd
  · intro c hc
    have hne : List.rdropWhile p (List.dropWhile p b) ≠ [] := by
      intro h0
      rw [h0] at hc
      simp at hc
    have hl := List.rdropWhile_last_not p (List.dropWhile p b) hne
    rw [List.getLast?_eq_getLast _ hne] at hc
    simp only [Option.some.injEq] at hc
    subst hc
    simpa using hl

/-! ## The update flow -/

/-- C1: in `main`, when the Resolver result `pubIP` differs from the Reader result, the
Updater is called exactly once, whatever its answer, with the configured hosted zone and
one change: action UPSERT, the configured record name, type A, TTL 3600 and the single
value `pubIP`; the Resolver is called once and `main` returns without a second attempt. -/
theorem main_mismatch_upserts_once {σ : Type} (W : World σ) (fl : Flags) (w : σ)
    (pubIP reg : String)
    (hpub : (publicIP W w).result = .ok pubIP)
    (hreg : (registeredIp W fl (publicIP W w).world).result = .ok reg)
    (hne : pubIP ≠ reg) :
    updaterCalls (main W fl w).events =
        [⟨some fl.hostedZoneId,
          some ⟨[⟨ChangeActionUpsert,
            some ⟨some fl.recordName, RRTypeA, some 3600, [⟨some pubIP⟩]⟩⟩]⟩⟩] ∧
      resolverCalls (main W fl w).events = [checkipURL] ∧
      (main W fl w).result = .ok () := by
  obtain ⟨h1a, -, h1c, -⟩ := publicIP_calls W w
  obtain ⟨h2a, -, h2c, -⟩ := registeredIp_calls W fl (publicIP W w).world
  rcases hp : publicIP W w with ⟨r1, w1, e1⟩
  rw [hp] at hpub hreg h1a h1c h2a h2c
  rcases hr : registeredIp W fl w1 with ⟨r2, w2, e2⟩
  rw [hr] at hreg h2a h2c
  simp only at hpub hreg h1a h1c h2a h2c
  subst hpub hreg
  cases hc : (W.loadDefaultConfig w2 AWSRegion fl.awsKey fl.awsSecret).1 <;>
  cases hch : (W.changeResourceRecordSets
      (W.loadDefaultConfig w2 AWSRegion fl.awsKey fl.awsSecret).2
      ⟨some fl.hostedZoneId,
        some ⟨[⟨ChangeActionUpsert,
          some ⟨some fl.recordName, RRTypeA, some 3600, [⟨some pubIP⟩]⟩⟩]⟩⟩).1 <;>
    simp [main, withDefer, mainBody, bind, Prog.bind, hp, hr, route53Client_eq, call, emit,
      hne, pure, Pure.pure, Prog.pure, hc, hch, updaterCalls_append, resolverCalls_append,
      updaterCalls, resolverCalls, h1a, h1c, h2a, h2c]

/-- The theorem for C1 at a run where the addresses differ and the provider rejects the
upsert. -/
theorem main_mismatch_upserts_once_witness :
    ((publicIP (fixedWorld (okResponse "203.0.113.7\n") (singleRecord "203.0.113.5")
        (some "InvalidChangeBatch")) ()).result = .ok "203.0.113.7" ∧
      "203.0.113.7" ≠ "203.0.113.5") ∧
      updaterCalls (main (fixedWorld (okResponse "203.0.113.7\n") (singleRecord "203.0.113.5")
        (some "InvalidChangeBatch")) sampleFlags ()).events =
        [⟨some "Z123",
          some ⟨[⟨"UPSERT",
            some ⟨some "home.example.org.", "A", some 3600, [⟨some "203.0.113.7"⟩]⟩⟩]⟩⟩] ∧
      resolverCalls (main (fixedWorld (okResponse "203.0.113.7\n")
        (singleRecord "203.0.113.5") (some "InvalidChangeBatch")) sampleFlags ()).events
        = [checkipURL] ∧
      (main (fixedWorld (okResponse "203.0.113.7\n") (singleRecord "203.0.113.5")
        (some "InvalidChangeBatch")) sampleFlags ()).result = .ok () :=
  ⟨⟨rfl, by decide⟩,
    main_mismatch_upserts_once
      (fixedWorld (okResponse "203.0.113.7\n") (singleRecord "203.0.113.5")
        (some "InvalidChangeBatch"))
      sampleFlags () "203.0.113.7" "203.0.113.5" rfl rfl (by decide)⟩

/-- C2: in `main`, when the Resolver and the Reader return the same string, no Updater
call occurs and the process exits with code 0. -/
theorem main_equal_no_update {σ : Type} (W : World σ) (fl : Flags) (w : σ) (s : String)
    (hpub : (publicIP W w).result = .ok s)
    (hreg : (registeredIp W fl (publicIP W w).world).result = .ok s) :
    updaterCalls (main W fl w).events = [] ∧
      (main W fl w).result = .error (.exit 0) := by
  obtain ⟨-, -, h1c, -⟩ := publicIP_calls W w
  obtain ⟨-, -, h2c, -⟩ := registeredIp_calls W fl (publicIP W w).world
  rcases hp : publicIP W w with ⟨r1, w1, e1⟩
  rw [hp] at hpub hreg h1c h2c
  rcases hr : registeredIp W fl w1 with ⟨r2, w2, e2⟩
  rw [hr] at hreg h2c
  simp only at hpub hreg h1c h2c
  subst hpub hreg
  simp [main, withDefer, mainBody, bind, Prog.bind, hp, hr, emit, osExit,
    updaterCalls_append, updaterCalls, h1c, h2c]

/-- The theorem for C2 at a run where both addresses are 203.0.113.5. -/
theorem main_equal_no_update_witness :
    (publicIP (fixedWorld (okResponse "203.0.113.5\n") (singleRecord "203.0.113.5") none)
        ()).result = .ok "203.0.113.5" ∧
      updaterCalls (main (fixedWorld (okResponse "203.0.113.5\n") (singleRecord "203.0.113.5")
        none) sampleFlags ()).events = [] ∧
      (main (fixedWorld (okResponse "203.0.113.5\n") (singleRecord "203.0.113.5") none)
        sampleFlags ()).result = .error (.exit 0) :=
  ⟨rfl,
    main_equal_no_update
      (fixedWorld (okResponse "203.0.113.5\n") (singleRecord "203.0.113.5") none)
      sampleFlags () "203.0.113.5" rfl rfl⟩

/-! ## The Resolver -/

/-- C3: for every response body, `publicIP` returns the body with its surrounding
whitespace trimmed: the body is a whitespace run, then the result, then a whitespace
run, and the result neither starts nor ends with a whitespace character. -/
theorem publicIP_trims_body {σ : Type} (W : World σ) (w w1 : σ) (r : Response)
    (err : Option GoError) (h : W.httpGet w checkipURL = ((some r, err), w1)) :
    ∃ ip : String, (publicIP W w).result = .ok ip ∧
      ∃ l t : List Char, r.Body.data.data = l ++ ip.data ++ t ∧
        (∀ c ∈ l, isSpace c = true) ∧ (∀ c ∈ t, isSpace c = true) ∧
        (∀ c, ip.data.head? = some c → isSpace c = false) ∧
        (∀ c, ip.data.getLast? = some c → isSpace c = false) := by
  refine ⟨TrimSpace r.Body.data, ?_, ?_⟩
  · rw [publicIP_of_response W w w1 r err h]
  · exact trim_middle isSpace r.Body.data.data

/-- The theorem for C3 at the body "203.0.113.5\n", which resolves to "203.0.113.5". -/
theorem publicIP_trims_body_witness :
    (publicIP (fixedWorld (okResponse "203.0.113.5\n") (singleRecord "203.0.113.5") none)
        ()).result = .ok "203.0.113.5" ∧
      ∃ ip : String,
        (publicIP (fixedWorld (okResponse "203.0.113.5\n") (singleRecord "203.0.113.5") none)
          ()).result = .ok ip ∧
        ∃ l t : List Char, "203.0.113.5\n".data = l ++ ip.data ++ t ∧
          (∀ c ∈ l, isSpace c = true) ∧ (∀ c ∈ t, isSpace c = true) ∧
          (∀ c, ip.data.head? = some c → isSpace c = false) ∧
          (∀ c, ip.data.getLast? = some c → isSpace c = false) :=
  ⟨rfl,
    publicIP_trims_body
      (fixedWorld (okResponse "203.0.113.5\n") (singleRecord "203.0.113.5") none)
      () () ⟨200, ⟨"203.0.113.5\n", none, none⟩⟩ none rfl⟩

/-! ## Startup -/

/-- C4: when any of access key, secret, hosted-zone id or record name is empty, whatever
the other options and the answers of the world, `init` exits with code 1 without any
Resolver, Reader or Updater call, and that exit is the outcome of the whole process. -/
theorem init_missing_config_exits_one {σ : Type} (W : World σ) (fl : Flags) (w : σ)
    (h : fl.awsKey = "" ∨ fl.awsSecret = "" ∨ fl.hostedZoneId = "" ∨ fl.recordName = "") :
    (init W fl w).result = .error (.exit 1) ∧
      resolverCalls (init W fl w).events = [] ∧
      readerCalls (init W fl w).events = [] ∧
      updaterCalls (init W fl w).events = [] ∧
      process W fl w = init W fl w := by
  have hb : (fl.awsKey == "" || fl.awsSecret == "" || fl.hostedZoneId == ""
      || fl.recordName == "") = true := by
    rcases h with h | h | h | h <;> simp [h]
  have hres : (init W fl w).result = .error (.exit 1) ∧
      resolverCalls (init W fl w).events = [] ∧
      readerCalls (init W fl w).events = [] ∧
      updaterCalls (init W fl w).events = [] := by
    by_cases hd : fl.sentryDsn = ""
    · simp [init, logFatalf, bind, Prog.bind, emit, osExit, hd, resolverCalls, readerCalls,
        updaterCalls]
    · cases he : (W.sentryInit w fl.sentryDsn).1 <;>
        simp [init, logFatalf, bind, Prog.bind, emit, osExit, call, pure, Pure.pure,
          Prog.pure, hd, he, hb, resolverCalls, readerCalls, updaterCalls]
  exact ⟨hres.1, hres.2.1, hres.2.2.1, hres.2.2.2, process_of_init_halt W fl w _ hres.1⟩

/-- The theorem for C4 at a command line whose record name is empty and whose bypass
flags are both set. -/
theorem init_missing_config_exits_one_witness :
    (init (fixedWorld (okResponse "203.0.113.5\n") (singleRecord "203.0.113.5") none)
        ⟨"AKIAEXAMPLE", "secret", "Z123", "", "https://key@sentry.example/1", true, true⟩
        ()).result = .error (.exit 1) ∧
      resolverCalls (init (fixedWorld (okResponse "203.0.113.5\n")
        (singleRecord "203.0.113.5") none)
        ⟨"AKIAEXAMPLE", "secret", "Z123", "", "https://key@sentry.example/1", true, true⟩
        ()).events = [] :=
  have h := init_missing_config_exits_one
    (fixedWorld (okResponse "203.0.113.5\n") (singleRecord "203.0.113.5") none)
    ⟨"AKIAEXAMPLE", "secret", "Z123", "", "https://key@sentry.example/1", true, true⟩ ()
    (Or.inr (Or.inr (Or.inr rfl)))
  ⟨h.1, h.2.1⟩

/-- C5, as stated, fails: with the whats-my-ip flag set, the run makes no Resolver call
and prints nothing when the access key is empty, when the sink DSN is empty, or when the
sink fails to initialise; and a lookup that yields no response is followed by no print. -/
theorem whatsMyIP_with_missing_key_counterexample :
    (resolverCalls (process (fixedWorld (okResponse "203.0.113.5\n")
        (singleRecord "203.0.113.5") none)
        ⟨"", "secret", "Z123", "home.example.org.", "https://key@sentry.example/1",
          true, false⟩ ()).events = [] ∧
      prints (process (fixedWorld (okResponse "203.0.113.5\n")
        (singleRecord "203.0.113.5") none)
        ⟨"", "secret", "Z123", "home.example.org.", "https://key@sentry.example/1",
          true, false⟩ ()).events = []) ∧
    (resolverCalls (process (fixedWorld (okResponse "203.0.113.5\n")
        (singleRecord "203.0.113.5") none)
        ⟨"AKIAEXAMPLE", "secret", "Z123", "home.example.org.", "", true, false⟩
        ()).events = [] ∧
      prints (process (fixedWorld (okResponse "203.0.113.5\n")
        (singleRecord "203.0.113.5") none)
        ⟨"AKIAEXAMPLE", "secret", "Z123", "home.example.org.", "", true, false⟩
        ()).events = []) ∧
    (resolverCalls (process (brokenSinkWorld (okResponse "203.0.113.5\n")
        (singleRecord "203.0.113.5") none)
        ⟨"AKIAEXAMPLE", "secret", "Z123", "home.example.org.", "ftp://sentry.example/1",
          true, false⟩ ()).events = [] ∧
      prints (process (brokenSinkWorld (okResponse "203.0.113.5\n")
        (singleRecord "203.0.113.5") none)
        ⟨"AKIAEXAMPLE", "secret", "Z123", "home.example.org.", "ftp://sentry.example/1",
          true, false⟩ ()).events = []) ∧
    prints (process (fixedWorld (none, some "dial tcp: no route to host")
        (singleRecord "203.0.113.5") none)
        ⟨"AKIAEXAMPLE", "secret", "Z123", "home.example.org.",
          "https://key@sentry.example/1", true, false⟩ ()).events = [] := by
  refine ⟨⟨?_, ?_⟩, ⟨?_, ?_⟩, ⟨?_, ?_⟩, ?_⟩ <;> decide

/-- C5, amended: when the whats-my-ip flag is set, the sink DSN is given and the sink
initialises, the four required options are non-empty and the GET yields a response, the
run makes exactly one Resolver call, prints exactly one line (the trimmed body), makes
no Reader and no Updater call, and exits with code 0, whatever the registered-ip flag. -/
theorem whatsMyIP_bypass {σ : Type} (W : World σ) (fl : Flags) (w w0 w1 : σ)
    (r : Response) (err : Option GoError)
    (hflag : fl.whatsMyIP = true)
    (hdsn : fl.sentryDsn ≠ "")
    (hsink : W.sentryInit w fl.sentryDsn = (none, w0))
    (hkey : fl.awsKey ≠ "") (hsecret : fl.awsSecret ≠ "")
    (hzone : fl.hostedZoneId ≠ "") (hname : fl.recordName ≠ "")
    (hget : W.httpGet w0 checkipURL = ((some r, err), w1)) :
    resolverCalls (process W fl w).events = [checkipURL] ∧
      prints (process W fl w).events
        = ["My current IP address is " ++ TrimSpace r.Body.data ++ "\n"] ∧
      readerCalls (process W fl w).events = [] ∧
      updaterCalls (process W fl w).events = [] ∧
      (process W fl w).result = .error (.exit 0) := by
  have hi : init W fl w =
      ⟨.error (.exit 0), w1,
        [.sentryInit fl.sentryDsn] ++ ((publicIP W w0).events
          ++ [.printf ("My current IP address is " ++ TrimSpace r.Body.data ++ "\n")])⟩ := by
    simp [init, bind, Prog.bind, emit, osExit, call, pure, Pure.pure, Prog.pure,
      hflag, hdsn, hsink, hkey, hsecret, hzone, hname,
      publicIP_of_response W w0 w1 r err hget]
  have hp := process_of_init_halt W fl w (.exit 0) (by rw [hi])
  obtain ⟨c1, c2, c3, c4⟩ := publicIP_calls W w0
  rw [hp, hi]
  generalize (publicIP W w0).events = es at c1 c2 c3 c4 ⊢
  simp [resolverCalls_append, readerCalls_append, updaterCalls_append, prints_append,
    resolverCalls, readerCalls, updaterCalls, prints, c1, c2, c3, c4]

/-- The theorem for C5 at a complete command line with both bypass flags set. -/
theorem whatsMyIP_bypass_witness :
    resolverCalls (process (fixedWorld (okResponse "203.0.113.5\n")
        (singleRecord "203.0.113.9") none)
        ⟨"AKIAEXAMPLE", "secret", "Z123", "home.example.org.",
          "https://key@sentry.example/1", true, true⟩ ()).events = [checkipURL] ∧
      prints (process (fixedWorld (okResponse "203.0.113.5\n")
        (singleRecord "203.0.113.9") none)
        ⟨"AKIAEXAMPLE", "secret", "Z123", "home.example.org.",
          "https://key@sentry.example/1", true, true⟩ ()).events
        = ["My current IP address is 203.0.113.5\n"] :=
  have h := whatsMyIP_bypass
    (fixedWorld (okResponse "203.0.113.5\n") (singleRecord "203.0.113.9") none)
    ⟨"AKIAEXAMPLE", "secret", "Z123", "home.example.org.",
      "https://key@sentry.example/1", true, true⟩ () () ()
    ⟨200, ⟨"203.0.113.5\n", none, none⟩⟩ none
    rfl (by decide) rfl (by decide) (by decide) (by decide) (by decide) rfl
  ⟨h.1, h.2.1⟩

/-! ## Failures of the Resolver and the Reader -/

/-- C6, as stated, fails: when the GET fails with no response `publicIP` panics on the
nil response instead of returning, and a body-read failure is not reported to the sink. -/
theorem publicIP_failure_counterexample :
    (publicIP (fixedWorld (none, some "dial tcp: no route to host")
        (singleRecord "203.0.113.5") none) ()).result = .error (.panic nilDereference) ∧
      sinkReports (publicIP (fixedWorld
        (some ⟨200, ⟨"203.0", some "unexpected EOF", none⟩⟩, none)
        (singleRecord "203.0.113.5") none) ()).events = [] := by
  refine ⟨rfl, ?_⟩
  decide

/-- C6, amended: when the GET yields a response, `publicIP` returns the trimmed text
that was read, so execution continues; the sink receives one report carrying the error
of the GET (nil for a bad status) exactly when the GET returned an error or the status
is above 299, then the error of closing the body if there is one, and nothing for a
body-read failure. -/
theorem publicIP_reports_and_returns {σ : Type} (W : World σ) (w w1 : σ) (r : Response)
    (err : Option GoError) (hget : W.httpGet w checkipURL = ((some r, err), w1)) :
    (publicIP W w).result = .ok (TrimSpace r.Body.data) ∧
      sinkReports (publicIP W w).events =
        (if err.isSome || decide (r.StatusCode > 299) then [err] else [])
          ++ (if r.Body.closeErr.isSome then [r.Body.closeErr] else []) := by
  rw [publicIP_of_response W w w1 r err hget]
  refine ⟨rfl, ?_⟩
  cases err <;> by_cases hs : r.StatusCode > 299 <;> cases hc : r.Body.closeErr <;>
    simp [hs, sinkReports]

/-- The theorem for C6 at a 503 answer whose body read breaks off: one report, and the
text read so far is returned. -/
theorem publicIP_reports_and_returns_witness :
    (publicIP (fixedWorld
        (some ⟨503, ⟨"Service Unavailable\n", some "unexpected EOF", none⟩⟩, none)
        (singleRecord "203.0.113.5") none) ()).result = .ok "Service Unavailable" ∧
      sinkReports (publicIP (fixedWorld
        (some ⟨503, ⟨"Service Unavailable\n", some "unexpected EOF", none⟩⟩, none)
        (singleRecord "203.0.113.5") none) ()).events = [none] :=
  publicIP_reports_and_returns
    (fixedWorld (some ⟨503, ⟨"Service Unavailable\n", some "unexpected EOF", none⟩⟩, none)
      (singleRecord "203.0.113.5") none)
    () () ⟨503, ⟨"Service Unavailable\n", some "unexpected EOF", none⟩⟩ none rfl

/-- C7 on the code: when the list call fails and hands back no output, `registeredIp`
reports the error and then panics on the nil output; it does not return to its caller,
the update flow ends in that panic and no Updater call is made. -/
theorem registeredIp_list_failure_panics :
    sinkReports (registeredIp (fixedWorld (okResponse "203.0.113.7\n")
        (none, some "AccessDenied") none) sampleFlags ()).events = [some "AccessDenied"] ∧
      (registeredIp (fixedWorld (okResponse "203.0.113.7\n")
        (none, some "AccessDenied") none) sampleFlags ()).result
        = .error (.panic nilDereference) ∧
      (process (fixedWorld (okResponse "203.0.113.7\n")
        (none, some "AccessDenied") none) sampleFlags ()).result
        = .error (.panic nilDereference) ∧
      updaterCalls (process (fixedWorld (okResponse "203.0.113.7\n")
        (none, some "AccessDenied") none) sampleFlags ()).events = [] := by
  refine ⟨?_, rfl, rfl, ?_⟩ <;> decide

/-- C10: for a successful list answer, `registeredIp` returns a value exactly when the
answer has a first record set with a first resource record, and the value is that
record's value (the empty string for nil); it panics with an index out of range exactly
when the list of record sets is empty or the first record set has no resource record. -/
theorem registeredIp_first_value {σ : Type} (W : World σ) (fl : Flags) (w w2 : σ)
    (o : ListResourceRecordSetsOutput)
    (hlist : W.listResourceRecordSets
      (W.loadDefaultConfig w AWSRegion fl.awsKey fl.awsSecret).2
      ⟨some fl.hostedZoneId, some fl.recordName⟩ = ((some o, none), w2)) :
    (∀ v : String, (registeredIp W fl w).result = .ok v ↔
        ∃ rs rr, o.ResourceRecordSets.head? = some rs ∧ rs.ResourceRecords.head? = some rr ∧
          v = ToString rr.Value) ∧
      ((registeredIp W fl w).result = .error (.panic indexOutOfRange) ↔
        (o.ResourceRecordSets = [] ∨
          ∃ rs, o.ResourceRecordSets.head? = some rs ∧ rs.ResourceRecords = [])) := by
  rcases o with ⟨rss⟩
  cases hc : (W.loadDefaultConfig w AWSRegion fl.awsKey fl.awsSecret).1 <;>
  cases rss with
  | nil =>
    simp [registeredIp, route53Client_eq, bind, Prog.bind, call, emit, pure, Pure.pure,
      Prog.pure, goPanic, hlist, hc]
  | cons rs rest =>
    rcases rs with ⟨n, t, ttl, rrs⟩
    cases rrs with
    | nil =>
      simp [registeredIp, route53Client_eq, bind, Prog.bind, call, emit, pure, Pure.pure,
        Prog.pure, goPanic, hlist, hc]
    | cons rr rest2 =>
      simp [registeredIp, route53Client_eq, bind, Prog.bind, call, emit, pure, Pure.pure,
        Prog.pure, goPanic, hlist, hc]
      intro v
      exact eq_comm

/-- The theorem for C10 at a list answer with one record set holding 203.0.113.5. -/
theorem registeredIp_first_value_witness :
    (registeredIp (fixedWorld (okResponse "203.0.113.5\n") (singleRecord "203.0.113.5") none)
        sampleFlags ()).result = .ok "203.0.113.5" ∧
      ((registeredIp (fixedWorld (okResponse "203.0.113.5\n") (singleRecord "203.0.113.5")
        none) sampleFlags ()).result = .error (.panic indexOutOfRange) ↔
        ((⟨[⟨some "home.example.org.", RRTypeA, some 3600, [⟨some "203.0.113.5"⟩]⟩]⟩ :
            ListResourceRecordSetsOutput).ResourceRecordSets = [] ∨
          ∃ rs, (⟨[⟨some "home.example.org.", RRTypeA, some 3600, [⟨some "203.0.113.5"⟩]⟩]⟩ :
            ListResourceRecordSetsOutput).ResourceRecordSets.head? = some rs ∧
            rs.ResourceRecords = [])) :=
  ⟨rfl,
    (registeredIp_first_value
      (fixedWorld (okResponse "203.0.113.5\n") (singleRecord "203.0.113.5") none)
      sampleFlags () ()
      ⟨[⟨some "home.example.org.", RRTypeA, some 3600, [⟨some "203.0.113.5"⟩]⟩]⟩ rfl).2⟩

/-! ## Flushing the sink -/

/-- C8 on the code: the already-up-to-date exit, the missing-configuration exit and the
whats-my-ip bypass end the process through `os.Exit` with no flush of the sink; only
the end of the update path, where `main` returns, runs the deferred flush. -/
theorem exit_paths_skip_flush :
    ((process (fixedWorld (okResponse "203.0.113.5\n") (singleRecord "203.0.113.5") none)
        sampleFlags ()).result = .error (.exit 0) ∧
      flushCount (process (fixedWorld (okResponse "203.0.113.5\n")
        (singleRecord "203.0.113.5") none) sampleFlags ()).events = 0) ∧
    ((process (fixedWorld (okResponse "203.0.113.5\n") (singleRecord "203.0.113.5") none)
        ⟨"", "secret", "Z123", "home.example.org.", "https://key@sentry.example/1",
          false, false⟩ ()).result = .error (.exit 1) ∧
      flushCount (process (fixedWorld (okResponse "203.0.113.5\n")
        (singleRecord "203.0.113.5") none)
        ⟨"", "secret", "Z123", "home.example.org.", "https://key@sentry.example/1",
          false, false⟩ ()).events = 0) ∧
    ((process (fixedWorld (okResponse "203.0.113.5\n") (singleRecord "203.0.113.5") none)
        ⟨"AKIAEXAMPLE", "secret", "Z123", "home.example.org.",
          "https://key@sentry.example/1", true, false⟩ ()).result = .error (.exit 0) ∧
      flushCount (process (fixedWorld (okResponse "203.0.113.5\n")
        (singleRecord "203.0.113.5") none)
        ⟨"AKIAEXAMPLE", "secret", "Z123", "home.example.org.",
          "https://key@sentry.example/1", true, false⟩ ()).events = 0) ∧
    ((process (fixedWorld (okResponse "203.0.113.7\n") (singleRecord "203.0.113.5") none)
        sampleFlags ()).result = .ok () ∧
      flushCount (process (fixedWorld (okResponse "203.0.113.7\n")
        (singleRecord "203.0.113.5") none) sampleFlags ()).events = 1) := by
  refine ⟨⟨rfl, ?_⟩, ⟨rfl, ?_⟩, ⟨rfl, ?_⟩, ⟨rfl, ?_⟩⟩ <;> decide

/-! ## Two runs against a provider that remembers the upsert -/

/-- One run of `main` against `providerWorld`: the record ends up holding the trimmed
body, with one Updater call if it held something else before and none if not. -/
theorem main_providerWorld (body : String) (fl : Flags) (cur : String) :
    (main (providerWorld body) fl cur).world = TrimSpace body ∧
      (updaterCalls (main (providerWorld body) fl cur).events).length
        = (if cur = TrimSpace body then 0 else 1) ∧
      (main (providerWorld body) fl cur).result
        = (if cur = TrimSpace body then .error (.exit 0) else .ok ()) := by
  have hp : publicIP (providerWorld body) cur
      = ⟨.ok (TrimSpace body), cur, [.httpGet checkipURL, .bodyClose]⟩ := by
    rw [publicIP_of_response (providerWorld body) cur cur ⟨200, ⟨body, none, none⟩⟩ none rfl]
    simp
  have hr : registeredIp (providerWorld body) fl cur
      = ⟨.ok cur, cur,
          [.loadDefaultConfig AWSRegion fl.awsKey fl.awsSecret,
            .listResourceRecordSets ⟨some fl.hostedZoneId, some fl.recordName⟩]⟩ := by
    simp [registeredIp, route53Client_eq, bind, Prog.bind, call, emit, pure, Pure.pure,
      Prog.pure, providerWorld, ToString]
  by_cases he : cur = TrimSpace body
  · subst he
    simp [main, withDefer, mainBody, bind, Prog.bind, hp, hr, emit, osExit, updaterCalls]
  · have he2 : ¬ TrimSpace body = cur := fun h => he h.symm
    have hl : ∀ w : String,
        (providerWorld body).loadDefaultConfig w AWSRegion fl.awsKey fl.awsSecret
          = (none, w) := fun _ => rfl
    have hch : ∀ (w : String) (i : ChangeResourceRecordSetsInput),
        (providerWorld body).changeResourceRecordSets w i = (none, applyBatch w i) :=
      fun _ _ => rfl
    simp [main, withDefer, mainBody, bind, Prog.bind, hp, hr, emit, osExit, updaterCalls,
      route53Client_eq, call, pure, Pure.pure, Prog.pure, he, he2, hl, hch,
      applyBatch, applyChange]

/-- C9, as stated, fails: when the record already holds the public IP, two runs make no
Updater call at all, not one. -/
theorem two_runs_counterexample :
    updaterCalls
      ((main (providerWorld "203.0.113.5\n") sampleFlags "203.0.113.5").events
        ++ (main (providerWorld "203.0.113.5\n") sampleFlags
          (main (providerWorld "203.0.113.5\n") sampleFlags "203.0.113.5").world).events)
      = [] := by
  decide

/-- C9, amended: against a provider whose list call returns the value set by the latest
upsert and whose upserts succeed, two runs of `main` with the same response body make
one Updater call in total when the initial registered value differs from the public IP
and none when it equals it; in both cases the second run makes no Updater call and
leaves through the equal-IPs exit with code 0. -/
theorem two_runs_update_at_most_once (body : String) (fl : Flags) (initial : String) :
    (updaterCalls
      ((main (providerWorld body) fl initial).events
        ++ (main (providerWorld body) fl
          (main (providerWorld body) fl initial).world).events)).length
      = (if initial = TrimSpace body then 0 else 1) ∧
    updaterCalls (main (providerWorld body) fl
      (main (providerWorld body) fl initial).world).events = [] ∧
    (main (providerWorld body) fl
      (main (providerWorld body) fl initial).world).result = .error (.exit 0) := by
  obtain ⟨hw, hn, -⟩ := main_providerWorld body fl initial
  obtain ⟨-, hn2, hr2⟩ := main_providerWorld body fl (TrimSpace body)
  rw [hw]
  simp only [if_true] at hn2 hr2
  have h0 : updaterCalls (main (providerWorld body) fl (TrimSpace body)).events = [] :=
    List.length_eq_zero.mp hn2
  refine ⟨?_, h0, hr2⟩
  rw [updaterCalls_append, List.length_append, h0, hn]
  simp

end Route53Ddns
